import Mathlib

/-!
Shallow embedding of the chat-assistant component and the product grid of
the seeze storefront mock-up.

The chat component keeps two pieces of React state, `messages` and
`inputValue`.  Its send handler rejects whitespace-only input, appends a
user message whose `id` is `messages.length + 1`, schedules a bot reply
via `setTimeout(..., 1000)` whose `id` is `messages.length + 2` captured
from the render-time closure, and clears the input.  We model the handler
as a pure function from the component state to the new state together
with the scheduled timer effect, and the timer firing as a separate
state-transforming function carrying the id the closure captured.
-/

namespace Seeze

/-- The `Message` interface: id, content, isBot flag and a timestamp.
Timestamps (`new Date()`) are abstracted as natural numbers supplied by
the caller. -/
structure Message where
  id : Nat
  content : String
  isBot : Bool
  timestamp : Nat
deriving Repr, DecidableEq

/-- The seeded assistant greeting, element 0 of `initialMessages`. -/
def greetingMessage : Message :=
  { id := 1
    content := "Hello! I'm your shopping assistant. How can I help you find the perfect product today?"
    isBot := true
    timestamp := 0 }

/-- The initial message list of a fresh session: one seeded greeting. -/
def initialMessages : List Message := [greetingMessage]

/-- The two `useState` fields of the chat component. -/
structure ChatState where
  messages : List Message
  inputValue : String
deriving Repr, DecidableEq

/-- Component state right after mount. -/
def initialState : ChatState :=
  { messages := initialMessages, inputValue := "" }

/-- A scheduled `setTimeout` callback: the bot id captured by the closure
at schedule time, and the delay in milliseconds. -/
structure PendingReply where
  botId : Nat
  delayMs : Nat
deriving Repr, DecidableEq

/-- The fixed placeholder reply text of the mock assistant. -/
def botReplyContent : String :=
  "I understand you're looking for that. Let me help you find the best options based on your preferences and budget."

/-- ECMAScript `String.prototype.trim`: strip leading and trailing
whitespace.  Modelled directly on the character list so the kernel can
evaluate it on concrete inputs. -/
def jsTrim (s : String) : String :=
  { data := ((s.data.dropWhile Char.isWhitespace).reverse.dropWhile Char.isWhitespace).reverse }

/-- The `handleSendMessage` handler.  Returns the new component state and
the timer it scheduled, if any.  The guard is the source's
`if (!inputValue.trim()) return`; the user message id is
`messages.length + 1`; the scheduled reply captures `messages.length + 2`
from the current render, and the delay is 1000 ms. -/
def handleSendMessage (now : Nat) (s : ChatState) : ChatState × Option PendingReply :=
  if jsTrim s.inputValue = "" then (s, none)
  else
    let userMessage : Message :=
      { id := s.messages.length + 1
        content := s.inputValue
        isBot := false
        timestamp := now }
    ({ messages := s.messages ++ [userMessage], inputValue := "" },
     some { botId := s.messages.length + 2, delayMs := 1000 })

/-- The body of the `setTimeout` callback: appends the bot response with
the id the closure captured when the timer was scheduled. -/
def fireReply (p : PendingReply) (now : Nat) (s : ChatState) : ChatState :=
  { s with
    messages := s.messages ++
      [{ id := p.botId
         content := botReplyContent
         isBot := true
         timestamp := now }] }

/-- The `onChange` handler of the input field (`setInputValue`). -/
def setInput (v : String) (s : ChatState) : ChatState :=
  { s with inputValue := v }

/-- The events that can hit the component: typing into the input,
pressing send, or a scheduled timer firing. -/
inductive Op where
  | typing (v : String)
  | submit (now : Nat)
  | fire (p : PendingReply) (now : Nat)
deriving Repr, DecidableEq

/-- Effect of one event on the component state (the scheduled timer of a
submit, if any, is tracked separately by the scenario using it). -/
def applyOp (s : ChatState) : Op → ChatState
  | .typing v => setInput v s
  | .submit now => (handleSendMessage now s).1
  | .fire p now => fireReply p now s

/-- Run a sequence of events from the freshly mounted component. -/
def run (ops : List Op) : ChatState :=
  ops.foldl applyOp initialState

/-- Ids of a message list are exactly `1, 2, ..., length`: the contiguity
invariant that holds while replies fire before the next submit. -/
def idsContiguous (ms : List Message) : Prop :=
  ms.map Message.id = List.range' 1 ms.length

/-! Scenario used to refute the claim that the reply id is computed at
append time: two submits before either timer fires. -/

/-- First submit of the two-in-flight scenario: type "a", press send. -/
def inflightSubmit1 : ChatState × Option PendingReply :=
  handleSendMessage 1 (setInput "a" initialState)

/-- Second submit before the first timer fires: type "b", press send. -/
def inflightSubmit2 : ChatState × Option PendingReply :=
  handleSendMessage 2 (setInput "b" inflightSubmit1.1)

/-- The timer scheduled by the first submit. -/
def inflightTimer1 : PendingReply :=
  inflightSubmit1.2.getD { botId := 0, delayMs := 0 }

/-- State after the first submit's timer fires, both submits done. -/
def inflightAfterFire : ChatState :=
  fireReply inflightTimer1 3 inflightSubmit2.1

/-!
Embedding of `ProductGrid.tsx`.  Prices are represented in cents and
ratings in tenths, so that the decimal literals of the source stay exact.
The component keeps two `useState` fields, `viewMode` and `sortBy`; the
rendered grid maps over the module-level `products` constant directly,
without consulting either state field.
-/

/-- The `Product` interface of `ProductGrid.tsx`. -/
structure Product where
  id : Nat
  name : String
  priceCents : Nat
  ratingTenths : Nat
  reviews : Nat
  image : String
  category : String
  badge : Option String
deriving Repr, DecidableEq

/-- The hard-coded `products` array, in source order. -/
def products : List Product :=
  [ { id := 1, name := "Premium Wireless Headphones", priceCents := 29999,
      ratingTenths := 48, reviews := 256, image := "headphones.jpg",
      category := "Electronics", badge := some "Best Seller" },
    { id := 2, name := "Ultra-Slim Laptop Pro", priceCents := 129999,
      ratingTenths := 49, reviews := 189, image := "laptop.jpg",
      category := "Electronics", badge := none },
    { id := 3, name := "Smart Phone X1", priceCents := 89999,
      ratingTenths := 47, reviews := 342, image := "smartphone.jpg",
      category := "Electronics", badge := some "New" },
    { id := 4, name := "Minimalist Coffee Mug", priceCents := 2499,
      ratingTenths := 46, reviews := 128, image := "mug.jpg",
      category := "Home", badge := none },
    { id := 5, name := "Premium Wireless Headphones Pro", priceCents := 39999,
      ratingTenths := 49, reviews := 445, image := "headphones.jpg",
      category := "Electronics", badge := some "Premium" },
    { id := 6, name := "Gaming Laptop Elite", priceCents := 179999,
      ratingTenths := 48, reviews := 267, image := "laptop.jpg",
      category := "Electronics", badge := none } ]

/-- The view-mode union type `"grid" | "list"`. -/
inductive ViewMode where
  | grid
  | list
deriving Repr, DecidableEq

/-- The two `useState` fields of `ProductGrid`. -/
structure GridState where
  viewMode : ViewMode
  sortBy : String
deriving Repr, DecidableEq

/-- Grid component state right after mount. -/
def initialGridState : GridState :=
  { viewMode := ViewMode.grid, sortBy := "featured" }

/-- `onValueChange={setSortBy}` of the sort select. -/
def setSortBy (v : String) (g : GridState) : GridState :=
  { g with sortBy := v }

/-- `onClick={() => setViewMode(...)}` of the two layout buttons. -/
def setViewMode (v : ViewMode) (g : GridState) : GridState :=
  { g with viewMode := v }

/-- The `value` attributes of the five `SelectItem` entries, in source
order. -/
def sortOptionValues : List String :=
  ["featured", "price-low", "price-high", "rating", "newest"]

/-- The string values of the view-mode union type. -/
def viewModeValues : List String :=
  ["grid", "list"]

/-- The layout class string picked from `viewMode` in the grid div. -/
def gridLayoutClass (v : ViewMode) : String :=
  match v with
  | ViewMode.grid => "grid-cols-1 md:grid-cols-2 lg:grid-cols-3 xl:grid-cols-4 gap-6"
  | ViewMode.list => "grid-cols-1 gap-4"

/-- The sequence of products the component renders: the JSX maps over
the module-level `products` constant and reads neither `sortBy` nor
`viewMode` while doing so. -/
def renderedProducts (_g : GridState) : List Product :=
  products

/-! Helper lemmas about the send handler. -/

/-- Accepted branch of the handler, spelled out. -/
lemma handleSendMessage_accept (now : Nat) (s : ChatState)
    (h : jsTrim s.inputValue ≠ "") :
    handleSendMessage now s =
      ({ messages := s.messages ++
            [{ id := s.messages.length + 1, content := s.inputValue,
               isBot := false, timestamp := now }],
         inputValue := "" },
       some { botId := s.messages.length + 2, delayMs := 1000 }) := by
  unfold handleSendMessage
  rw [if_neg h]

/-- Rejected branch of the handler: a strict no-op. -/
lemma handleSendMessage_reject (now : Nat) (s : ChatState)
    (h : jsTrim s.inputValue = "") :
    handleSendMessage now s = (s, none) := by
  unfold handleSendMessage
  rw [if_pos h]

/-- Appending one message whose id is `length + 1` preserves the
contiguity invariant. -/
lemma idsContiguous_append (ms : List Message) (m : Message)
    (hc : idsContiguous ms) (hm : m.id = ms.length + 1) :
    idsContiguous (ms ++ [m]) := by
  unfold idsContiguous at hc ⊢
  rw [List.map_append, hc, List.map_singleton, hm, List.length_append,
    List.length_singleton, List.range'_concat]
  simp [Nat.add_comm]

/-- Contiguous ids are strictly increasing along the list. -/
lemma idsContiguous_pairwise (ms : List Message) (hc : idsContiguous ms) :
    List.Pairwise (· < ·) (ms.map Message.id) := by
  rw [hc]
  exact List.pairwise_lt_range' 1 ms.length

/-- Every single event keeps the old message list as a prefix and grows
it by at most one element. -/
lemma applyOp_messages (s : ChatState) (op : Op) :
    s.messages <+: (applyOp s op).messages ∧
    (applyOp s op).messages.length ≤ s.messages.length + 1 := by
  cases op with
  | typing v =>
    exact ⟨List.prefix_refl _, by simp [applyOp, setInput]⟩
  | submit n =>
    show s.messages <+: (handleSendMessage n s).1.messages ∧
      (handleSendMessage n s).1.messages.length ≤ s.messages.length + 1
    by_cases h : jsTrim s.inputValue = ""
    · rw [handleSendMessage_reject n s h]
      exact ⟨List.prefix_refl _, Nat.le_succ _⟩
    · rw [handleSendMessage_accept n s h]
      exact ⟨List.prefix_append _ _, by simp⟩
  | fire p n =>
    exact ⟨List.prefix_append _ _, by simp [applyOp, fireReply]⟩

/-- Folding any event sequence keeps the starting messages as a prefix. -/
lemma foldl_messages_prefix (ops : List Op) (s : ChatState) :
    s.messages <+: (ops.foldl applyOp s).messages := by
  induction ops generalizing s with
  | nil => exact List.prefix_refl _
  | cons op ops ih =>
    exact (applyOp_messages s op).1.trans (ih (applyOp s op))

/-- Any run from the fresh session keeps the greeting at position 0. -/
lemma run_head (ops : List Op) :
    (run ops).messages.head? = some greetingMessage := by
  obtain ⟨t, ht⟩ := foldl_messages_prefix ops initialState
  show (ops.foldl applyOp initialState).messages.head? = some greetingMessage
  rw [← ht]
  rfl

/-- C1, counterexample.  The claim says assistant reply ids are computed
at append time (when the timer fires) so ids stay unique however many
sends are in flight.  With two submits before either timer fires, the
first timer appends a bot message whose id was captured at schedule time
as 3, colliding with the second user message: the id sequence is
[1, 2, 3, 3], neither unique nor strictly increasing. -/
theorem c1_counterexample :
    inflightSubmit1.2 = some { botId := 3, delayMs := 1000 } ∧
    inflightSubmit2.1.messages.map Message.id = [1, 2, 3] ∧
    inflightAfterFire.messages.map Message.id = [1, 2, 3, 3] ∧
    ¬ (inflightAfterFire.messages.map Message.id).Nodup ∧
    ¬ List.Pairwise (· < ·) (inflightAfterFire.messages.map Message.id) := by
  decide

/-- C1, amended.  Each appended User message gets id = message count + 1,
and the scheduled Assistant reply carries id = message count + 2 captured
at schedule time (not recomputed at append time).  When the reply fires
before the next submit, ids stay contiguous 1..length, hence strictly
increasing and unique; with several sends in flight they can collide. -/
theorem c1_ids_sequential (s : ChatState) (n1 n2 : Nat)
    (hc : idsContiguous s.messages) (hne : jsTrim s.inputValue ≠ "") :
    ∃ p : PendingReply,
      (handleSendMessage n1 s).2 = some p ∧
      p.botId = s.messages.length + 2 ∧
      (handleSendMessage n1 s).1.messages =
        s.messages ++ [{ id := s.messages.length + 1, content := s.inputValue,
                         isBot := false, timestamp := n1 }] ∧
      idsContiguous (fireReply p n2 (handleSendMessage n1 s).1).messages ∧
      List.Pairwise (· < ·)
        ((fireReply p n2 (handleSendMessage n1 s).1).messages.map Message.id) ∧
      ((fireReply p n2 (handleSendMessage n1 s).1).messages.map Message.id).Nodup := by
  rw [handleSendMessage_accept n1 s hne]
  have hc1 : idsContiguous (s.messages ++
      [{ id := s.messages.length + 1, content := s.inputValue,
         isBot := false, timestamp := n1 }]) :=
    idsContiguous_append s.messages _ hc rfl
  have hc2 : idsContiguous ((s.messages ++
      [{ id := s.messages.length + 1, content := s.inputValue,
         isBot := false, timestamp := n1 }]) ++
      [{ id := s.messages.length + 2, content := botReplyContent,
         isBot := true, timestamp := n2 }]) := by
    refine idsContiguous_append _ _ hc1 ?_
    simp
  have hp := idsContiguous_pairwise _ hc2
  exact ⟨_, rfl, rfl, rfl, hc2, hp, hp.nodup⟩

/-- C1 amended, witness: a fresh session with "hi" typed in satisfies the
hypotheses, and submitting then firing keeps ids contiguous. -/
theorem c1_ids_sequential_witness :
    idsContiguous (setInput "hi" initialState).messages ∧
    jsTrim (setInput "hi" initialState).inputValue ≠ "" ∧
    (∃ p : PendingReply,
      (handleSendMessage 5 (setInput "hi" initialState)).2 = some p ∧
      p.botId = (setInput "hi" initialState).messages.length + 2 ∧
      (handleSendMessage 5 (setInput "hi" initialState)).1.messages =
        (setInput "hi" initialState).messages ++
          [{ id := (setInput "hi" initialState).messages.length + 1,
             content := (setInput "hi" initialState).inputValue,
             isBot := false, timestamp := 5 }] ∧
      idsContiguous
        (fireReply p 6 (handleSendMessage 5 (setInput "hi" initialState)).1).messages ∧
      List.Pairwise (· < ·)
        ((fireReply p 6 (handleSendMessage 5 (setInput "hi" initialState)).1).messages.map
          Message.id) ∧
      ((fireReply p 6 (handleSendMessage 5 (setInput "hi" initialState)).1).messages.map
          Message.id).Nodup) :=
  ⟨rfl, by decide, c1_ids_sequential (setInput "hi" initialState) 5 6 rfl (by decide)⟩

/-- C2: an accepted submit grows the list by exactly one message at once,
and by exactly two in total once its scheduled 1000 ms reply fires. -/
theorem c2_submit_counts (s : ChatState) (n1 n2 : Nat)
    (h : jsTrim s.inputValue ≠ "") :
    (handleSendMessage n1 s).1.messages.length = s.messages.length + 1 ∧
    ∃ p : PendingReply,
      (handleSendMessage n1 s).2 = some p ∧
      (fireReply p n2 (handleSendMessage n1 s).1).messages.length =
        s.messages.length + 2 := by
  rw [handleSendMessage_accept n1 s h]
  exact ⟨by simp, _, rfl, by simp [fireReply]⟩

/-- C2, witness: submitting "red shoes" to a fresh session. -/
theorem c2_submit_counts_witness :
    jsTrim (setInput "red shoes" initialState).inputValue ≠ "" ∧
    ((handleSendMessage 7 (setInput "red shoes" initialState)).1.messages.length =
      (setInput "red shoes" initialState).messages.length + 1 ∧
    ∃ p : PendingReply,
      (handleSendMessage 7 (setInput "red shoes" initialState)).2 = some p ∧
      (fireReply p 8 (handleSendMessage 7 (setInput "red shoes" initialState)).1).messages.length =
        (setInput "red shoes" initialState).messages.length + 2) :=
  ⟨by decide, c2_submit_counts (setInput "red shoes" initialState) 7 8 (by decide)⟩

/-- C3: whitespace-only input makes the handler a strict no-op: same
state, no message appended, no timer scheduled. -/
theorem c3_empty_input_noop (s : ChatState) (n : Nat)
    (h : jsTrim s.inputValue = "") :
    handleSendMessage n s = (s, none) :=
  handleSendMessage_reject n s h

/-- C3, witness: submitting three spaces to a fresh session. -/
theorem c3_empty_input_noop_witness :
    jsTrim (setInput "   " initialState).inputValue = "" ∧
    handleSendMessage 4 (setInput "   " initialState) =
      (setInput "   " initialState, none) :=
  ⟨by decide, c3_empty_input_noop (setInput "   " initialState) 4 (by decide)⟩

/-- C4: every event leaves the message list unchanged or appends exactly
one message at the end (the old list is always a prefix of the new one),
and the seeded greeting with id 1 is the first element at creation and
after any run of events. -/
theorem c4_append_only :
    (∀ (s : ChatState) (op : Op),
      s.messages <+: (applyOp s op).messages ∧
      (applyOp s op).messages.length ≤ s.messages.length + 1) ∧
    initialMessages = [greetingMessage] ∧
    greetingMessage.id = 1 ∧
    greetingMessage.isBot = true ∧
    initialState.messages.head? = some greetingMessage ∧
    (∀ ops : List Op, (run ops).messages.head? = some greetingMessage) :=
  ⟨applyOp_messages, rfl, rfl, rfl, rfl, run_head⟩

/-- C5: every accepted submit schedules its reply with a fixed delay of
1000 ms, and a firing reply always appends the one fixed placeholder
string, so two submits with different texts produce identical reply
content. -/
theorem c5_fixed_reply (s t : ChatState) (n m k j : Nat) (u v : ChatState)
    (hs : jsTrim s.inputValue ≠ "") (ht : jsTrim t.inputValue ≠ "") :
    ∃ p q : PendingReply,
      (handleSendMessage n s).2 = some p ∧
      (handleSendMessage m t).2 = some q ∧
      p.delayMs = 1000 ∧
      q.delayMs = 1000 ∧
      (fireReply p k u).messages.getLast?.map Message.content = some botReplyContent ∧
      (fireReply q j v).messages.getLast?.map Message.content = some botReplyContent ∧
      (fireReply p k u).messages.getLast?.map Message.content =
        (fireReply q j v).messages.getLast?.map Message.content := by
  rw [handleSendMessage_accept n s hs, handleSendMessage_accept m t ht]
  refine ⟨_, _, rfl, rfl, rfl, rfl, ?_, ?_, ?_⟩
  all_goals simp [fireReply, List.getLast?_concat]

/-- C5, witness: submitting "cheap mugs" and "gaming laptop" from a fresh
session yields two 1000 ms timers whose replies carry the same fixed
text. -/
theorem c5_fixed_reply_witness :
    jsTrim (setInput "cheap mugs" initialState).inputValue ≠ "" ∧
    jsTrim (setInput "gaming laptop" initialState).inputValue ≠ "" ∧
    (∃ p q : PendingReply,
      (handleSendMessage 1 (setInput "cheap mugs" initialState)).2 = some p ∧
      (handleSendMessage 2 (setInput "gaming laptop" initialState)).2 = some q ∧
      p.delayMs = 1000 ∧
      q.delayMs = 1000 ∧
      (fireReply p 3 (handleSendMessage 1 (setInput "cheap mugs" initialState)).1).messages.getLast?.map
          Message.content = some botReplyContent ∧
      (fireReply q 4 (handleSendMessage 2 (setInput "gaming laptop" initialState)).1).messages.getLast?.map
          Message.content = some botReplyContent ∧
      (fireReply p 3 (handleSendMessage 1 (setInput "cheap mugs" initialState)).1).messages.getLast?.map
          Message.content =
        (fireReply q 4 (handleSendMessage 2 (setInput "gaming laptop" initialState)).1).messages.getLast?.map
          Message.content) :=
  ⟨by decide, by decide,
    c5_fixed_reply (setInput "cheap mugs" initialState)
      (setInput "gaming laptop" initialState) 1 2 3 4
      (handleSendMessage 1 (setInput "cheap mugs" initialState)).1
      (handleSendMessage 2 (setInput "gaming laptop" initialState)).1
      (by decide) (by decide)⟩

/-- C6: every accepted submit schedules exactly one reply, and that reply,
whenever its timer fires, unconditionally appends exactly one Assistant
message — there is no failure path. -/
theorem c6_each_submit_one_reply (s : ChatState) (n : Nat)
    (h : jsTrim s.inputValue ≠ "") :
    ∃ p : PendingReply,
      (handleSendMessage n s).2 = some p ∧
      ∀ (u : ChatState) (m : Nat),
        (fireReply p m u).messages =
          u.messages ++ [{ id := p.botId, content := botReplyContent,
                           isBot := true, timestamp := m }] ∧
        ((fireReply p m u).messages.filter Message.isBot).length =
          (u.messages.filter Message.isBot).length + 1 := by
  rw [handleSendMessage_accept n s h]
  refine ⟨_, rfl, fun u m => ⟨rfl, ?_⟩⟩
  simp [fireReply, List.filter_append]

/-- C6, witness: submitting "shoes" schedules one reply whose firing
appends one Assistant message. -/
theorem c6_each_submit_one_reply_witness :
    jsTrim (setInput "shoes" initialState).inputValue ≠ "" ∧
    (∃ p : PendingReply,
      (handleSendMessage 9 (setInput "shoes" initialState)).2 = some p ∧
      ∀ (u : ChatState) (m : Nat),
        (fireReply p m u).messages =
          u.messages ++ [{ id := p.botId, content := botReplyContent,
                           isBot := true, timestamp := m }] ∧
        ((fireReply p m u).messages.filter Message.isBot).length =
          (u.messages.filter Message.isBot).length + 1) :=
  ⟨by decide, c6_each_submit_one_reply (setInput "shoes" initialState) 9 (by decide)⟩

/-- C7: the rendered product sequence is the same fixed array in source
order for every combination of sort selection and view mode — the render
never reads either state field. -/
theorem c7_sort_independent_render (g1 g2 : GridState) :
    renderedProducts g1 = renderedProducts g2 ∧
    renderedProducts g1 = products ∧
    renderedProducts (setSortBy "price-low" g1) = renderedProducts g1 ∧
    renderedProducts (setViewMode ViewMode.list g1) = renderedProducts g1 :=
  ⟨rfl, rfl, rfl, rfl⟩

/-- C8: the sort select offers exactly the five fixed string values, in
source order, and the view mode ranges over exactly the two values of the
grid/list union type. -/
theorem c8_option_values :
    sortOptionValues = ["featured", "price-low", "price-high", "rating", "newest"] ∧
    sortOptionValues.length = 5 ∧
    sortOptionValues.Nodup ∧
    viewModeValues = ["grid", "list"] ∧
    viewModeValues.length = 2 ∧
    (∀ v : ViewMode, v = ViewMode.grid ∨ v = ViewMode.list) ∧
    initialGridState.sortBy = "featured" ∧
    initialGridState.viewMode = ViewMode.grid := by
  refine ⟨rfl, rfl, by decide, rfl, rfl, ?_, rfl, rfl⟩
  intro v
  cases v
  · exact Or.inl rfl
  · exact Or.inr rfl

/-- C9: a rejected submit changes nothing at all (input included), and an
accepted submit clears the input, appends one user message, and touches
no other state field — the component state consists of exactly the
message list and the input value. -/
theorem c9_submit_frame (s : ChatState) (n : Nat) :
    (jsTrim s.inputValue = "" → handleSendMessage n s = (s, none)) ∧
    (jsTrim s.inputValue ≠ "" →
      (handleSendMessage n s).1.inputValue = "" ∧
      ∃ u : Message, (handleSendMessage n s).1.messages = s.messages ++ [u]) := by
  constructor
  · intro h
    exact handleSendMessage_reject n s h
  · intro h
    rw [handleSendMessage_accept n s h]
    exact ⟨rfl, _, rfl⟩

/-- C9, witness: the accepted branch on input " hi" and the rejected
branch on a single space. -/
theorem c9_submit_frame_witness :
    ((handleSendMessage 3 (setInput " hi" initialState)).1.inputValue = "" ∧
      ∃ u : Message,
        (handleSendMessage 3 (setInput " hi" initialState)).1.messages =
          (setInput " hi" initialState).messages ++ [u]) ∧
    handleSendMessage 3 (setInput " " initialState) =
      (setInput " " initialState, none) :=
  ⟨(c9_submit_frame (setInput " hi" initialState) 3).2 (by decide),
   (c9_submit_frame (setInput " " initialState) 3).1 (by decide)⟩

/-- C10: the stored user message keeps the raw submitted string with its
surrounding whitespace — trimming only gates acceptance — and the stored
content is therefore non-empty. -/
theorem c10_raw_content (s : ChatState) (n : Nat)
    (h : jsTrim s.inputValue ≠ "") :
    ∃ u : Message,
      (handleSendMessage n s).1.messages = s.messages ++ [u] ∧
      u.content = s.inputValue ∧
      u.isBot = false ∧
      u.content ≠ "" := by
  rw [handleSendMessage_accept n s h]
  refine ⟨_, rfl, rfl, rfl, fun he => h ?_⟩
  have hv : s.inputValue = "" := he
  rw [hv]
  rfl

/-- C10, witness: submitting "  red shoes  " stores it untrimmed. -/
theorem c10_raw_content_witness :
    jsTrim (setInput "  red shoes  " initialState).inputValue ≠ "" ∧
    (∃ u : Message,
      (handleSendMessage 2 (setInput "  red shoes  " initialState)).1.messages =
        (setInput "  red shoes  " initialState).messages ++ [u] ∧
      u.content = (setInput "  red shoes  " initialState).inputValue ∧
      u.isBot = false ∧
      u.content ≠ "") :=
  ⟨by decide, c10_raw_content (setInput "  red shoes  " initialState) 2 (by decide)⟩

end Seeze
